import Mathlib

/-!
Shallow embedding of the fleet command dispatcher implemented in `bot.py` and
`vps.py` (the two files are textually identical in every function modelled
here, apart from the Markdown parse mode of `send_message` and the
`/start`-`/help` shortcut, which only `bot.py` has and which is included in
`routeText` below).

Modelling conventions:
* The mutable globals `VPS_LIST` and `user_data` are passed in and returned
  explicitly; each handler returns a `HandlerOut` record of the messages it
  sent, the final host list, the final per-user upload state, the worker
  threads it spawned, and the remote (ssh/sftp) calls it issued on the
  calling thread.
* Network effects are driven by explicit outcome oracles: `Nat → Bool` for
  the liveness probe (per host index), `ExecOutcome` for one ssh
  exec session, `SftpOutcome` for the body of `handle_file_upload`'s `try`
  block.
* Python's `int(..)` on a whitespace-free token is modelled by `pyToInt`
  (optional sign followed by decimal digits), `str.split()` by `pySplit`,
  `str.split(maxsplit=2)` by `pySplitMax2`, and `str.strip()` by `pyStrip`.
-/

namespace Tum

/-- A host record, one element of `VPS_LIST` in `config.json`. -/
structure VPS where
  ip : String
  user : String
  password : String
  busy : Bool
deriving DecidableEq, Repr

/-- `ADMIN_IDS = [1419969308]` (bot.py line 12). -/
def ADMIN_IDS : List Int := [1419969308]

/-- `DEFAULT_TIME_DURATION = 120` (bot.py line 16). -/
def DEFAULT_TIME_DURATION : Int := 120

/-- `DEFAULT_THREADS = 100` (bot.py line 17). -/
def DEFAULT_THREADS : Int := 100

/-- `is_admin`: membership in the hardcoded admin allowlist. -/
def is_admin (chat_id : Int) : Bool := ADMIN_IDS.contains chat_id

/-- Worker for `pySplit`: scan the characters, accumulating the current word
(reversed); whitespace ends the word. -/
def wordsAux : List Char → List Char → List String
  | [], acc => if acc.isEmpty then [] else [String.mk acc.reverse]
  | c :: cs, acc =>
    if c.isWhitespace then
      if acc.isEmpty then wordsAux cs [] else String.mk acc.reverse :: wordsAux cs []
    else wordsAux cs (c :: acc)

/-- Python `str.split()` with no arguments: split on runs of whitespace,
dropping empty pieces. -/
def pySplit (s : String) : List String := wordsAux s.toList []

/-- Python `str.split(maxsplit=2)`: at most two splits; the third piece keeps
its internal and trailing whitespace (leading separator stripped). -/
def pySplitMax2 (s : String) : List String :=
  let cs := s.toList.dropWhile Char.isWhitespace
  if cs.isEmpty then []
  else
    let w1 := cs.takeWhile (fun c => !c.isWhitespace)
    let r1 := (cs.dropWhile (fun c => !c.isWhitespace)).dropWhile Char.isWhitespace
    if r1.isEmpty then [String.mk w1]
    else
      let w2 := r1.takeWhile (fun c => !c.isWhitespace)
      let r2 := (r1.dropWhile (fun c => !c.isWhitespace)).dropWhile Char.isWhitespace
      if r2.isEmpty then [String.mk w1, String.mk w2]
      else [String.mk w1, String.mk w2, String.mk r2]

/-- Python `str.strip()`. -/
def pyStrip (s : String) : String :=
  String.mk (((s.toList.dropWhile Char.isWhitespace).reverse.dropWhile Char.isWhitespace).reverse)

/-- Decimal digits to a natural number; `none` on an empty or non-digit list. -/
def digitsToNat (cs : List Char) : Option Nat :=
  if cs.isEmpty || !(cs.all Char.isDigit) then none
  else some (cs.foldl (fun n c => 10 * n + (c.toNat - 48)) 0)

/-- Python `int(s)` on a whitespace-free token: optional sign, then digits;
raises `ValueError` (here: `none`) otherwise. -/
def pyToInt (s : String) : Option Int :=
  match s.toList with
  | '-' :: cs => (digitsToNat cs).map (fun n => -(n : Int))
  | '+' :: cs => (digitsToNat cs).map (fun n => (n : Int))
  | cs => (digitsToNat cs).map (fun n => (n : Int))

/-- The per-user `user_data[chat_id]` entry: `{"step": "upload_ip"}` or
`{"step": "upload_file", "ip": ip}`. -/
inductive UploadStep where
  | uploadIp : UploadStep
  | uploadFile (ip : String) : UploadStep
deriving DecidableEq, Repr

/-- The `user_data` dictionary, keyed by chat id. -/
abbrev UserData := List (Int × UploadStep)

/-- Dictionary lookup `user_data.get(chat_id)`. -/
def lookupUser (d : UserData) (chat_id : Int) : Option UploadStep :=
  (d.find? (fun p => p.1 == chat_id)).map (fun p => p.2)

/-- Dictionary assignment `user_data[chat_id] = s`. -/
def setUser (d : UserData) (chat_id : Int) (s : UploadStep) : UserData :=
  d.filter (fun p => p.1 != chat_id) ++ [(chat_id, s)]

/-- Dictionary deletion `del user_data[chat_id]` (no-op when absent, which is
how the guarded `if chat_id in user_data: del ...` behaves). -/
def eraseUser (d : UserData) (chat_id : Int) : UserData :=
  d.filter (fun p => p.1 != chat_id)

/-- An observable interaction with a remote host issued on the calling
thread. -/
inductive RemoteCall where
  | probe (ip : String)
  | execCmd (ip command : String)
  | sftpPut (ip localName remotePath : String)
deriving DecidableEq, Repr

/-- The arguments of one spawned `execute_attack` worker thread; `vps` is the
host record as the worker receives it (after the dispatcher's
`vps["busy"] = True`). -/
structure AttackJob where
  vps : VPS
  target : String
  port : Int
  duration : Int
  threads : Int
  chat_id : Int
deriving DecidableEq, Repr

/-- Outcome oracle for one ssh exec session: `ok output error` when the
session completes with the given decoded stdout/stderr, `exc msg` when any
step of the `try` block raises. -/
inductive ExecOutcome where
  | ok (output : String) (err : String)
  | exc (msg : String)
deriving DecidableEq, Repr

/-- Outcome oracle for the `try` block of `handle_file_upload`: success, an
exception raised before the sftp `put` is issued (download/connect), or an
exception at or after the `put`. -/
inductive SftpOutcome where
  | ok : SftpOutcome
  | failBeforePut (msg : String) : SftpOutcome
  | failAfterPut (msg : String) : SftpOutcome
deriving DecidableEq, Repr

/-- The observable effects of one handler invocation: the messages sent (as
`(chat_id, text)`, in order), the final `VPS_LIST`, the final `user_data`,
the worker threads started, and the remote calls issued on the calling
thread. -/
structure HandlerOut where
  msgs : List (Int × String)
  vps : List VPS
  users : UserData
  jobs : List AttackJob
  calls : List RemoteCall
deriving DecidableEq, Repr

def adminOnlyMsg : String := "🚫 **This command is restricted to admins only.**"

def attackUsageMsg : String :=
  "⚠️ **Usage:** /attack `<IP>` `<PORT>` `<TIME>` `<THREADS>`\n\nExample: `/attack 1.1.1.1 80 120` (uses default 100 threads)"

def intArgsMsg : String := "❌ **Error:** Port, time, and threads must be integers!"

def maxDurationMsg : String := "🚫 **Maximum duration is 240 seconds!**"

def maxThreadsMsg : String := "🚫 **Maximum threads is 5000!**"

def allBusyMsg : String := "🚫 **All VPS are busy, try again later!**"

def attackStartedMsg (ip target : String) (port duration threads : Int) : String :=
  "🔥 **Attack started from `" ++ ip ++ "` on `" ++ target ++ ":" ++ toString port ++
    "` for `" ++ toString duration ++ "`s with `" ++ toString threads ++ "` threads** 🚀"

/-- `command[3] if len(command) > 3 else str(DEFAULT_TIME_DURATION)`. -/
def attackTimeStr (toks : List String) : String :=
  if 3 < toks.length then toks.getD 3 "" else toString DEFAULT_TIME_DURATION

/-- `command[4] if len(command) > 4 else str(DEFAULT_THREADS)`. -/
def attackThreadsStr (toks : List String) : String :=
  if 4 < toks.length then toks.getD 4 "" else toString DEFAULT_THREADS

/-- `get_available_vps` (the Python function returns `None` instead of the
empty list; emptiness is what its caller tests, so the model keeps the
list). -/
def get_available_vps (vpsList : List VPS) : List VPS :=
  vpsList.filter (fun v => !v.busy)

/-- `handle_attack` (bot.py lines 132-173): admin gate, arity check, integer
parsing of port/time/threads, the 240-second and 5000-thread caps, the free
host selection, the in-place `vps["busy"] = True` marking, and one spawned
worker per selected host. -/
def handle_attack (chat_id : Int) (text : String) (vpsList : List VPS)
    (users : UserData) : HandlerOut :=
  if !is_admin chat_id then
    ⟨[(chat_id, adminOnlyMsg)], vpsList, users, [], []⟩
  else
    let command := pySplit text
    if command.length < 3 || command.length > 5 then
      ⟨[(chat_id, attackUsageMsg)], vpsList, users, [], []⟩
    else
      let target := command.getD 1 ""
      match pyToInt (command.getD 2 ""), pyToInt (attackTimeStr command),
          pyToInt (attackThreadsStr command) with
      | some port, some time_duration, some threads =>
        if time_duration > 240 then
          ⟨[(chat_id, maxDurationMsg)], vpsList, users, [], []⟩
        else if threads > 5000 then
          ⟨[(chat_id, maxThreadsMsg)], vpsList, users, [], []⟩
        else
          let available_vps := get_available_vps vpsList
          if available_vps.isEmpty then
            ⟨[(chat_id, allBusyMsg)], vpsList, users, [], []⟩
          else
            ⟨available_vps.map (fun v => (chat_id, attackStartedMsg v.ip target port time_duration threads)),
             vpsList.map (fun v => if v.busy then v else { v with busy := true }),
             users,
             available_vps.map (fun v => ⟨{ v with busy := true }, target, port, time_duration, threads, chat_id⟩),
             []⟩
      | _, _, _ =>
        ⟨[(chat_id, intArgsMsg)], vpsList, users, [], []⟩

/-- `execute_attack` worker body (bot.py lines 108-130). The ssh session is
abstracted into the `outcome` oracle; `ExecOutcome.exc` covers an exception
raised at any point of the `try` block. Returns the host record after the
worker finishes (both branches perform `vps["busy"] = False`) together with
the messages sent. -/
def execute_attack (vps : VPS) (_target : String) (_port _duration _threads : Int)
    (chat_id : Int) (outcome : ExecOutcome) : VPS × List (Int × String) :=
  match outcome with
  | .ok _ err =>
    ({ vps with busy := false },
     if err != "" then
       [(chat_id, "❌ **ATTACK FAILED FROM `" ++ vps.ip ++ "`** 😡\nError: " ++ err)]
     else
       [(chat_id, "✅ **ATTACK COMPLETED FROM `" ++ vps.ip ++ "`** 💀🔥")])
  | .exc msg =>
    ({ vps with busy := false }, [(chat_id, "❌ **ERROR:** " ++ msg)])

def runningLine (ip : String) : String := "✨🟢 `" ++ ip ++ "` **RUNNING** ✅"

def downLine (ip : String) : String := "🔥🔴 `" ++ ip ++ "` **DOWN** ❌"

def downAlertMsg (failed : List String) : String :=
  "🚨 **ALERT: Some VPS are DOWN!**\n" ++ String.intercalate "\n" (failed.map downLine)

/-- The scanning loop of `check_vps_status`: builds the status lines and the
failed-ip list in host order; `ok i` tells whether the ssh connect to the
host at absolute index `i` succeeds. -/
def checkVpsAux (ok : Nat → Bool) : Nat → List VPS → List String × List String
  | _, [] => ([], [])
  | i, v :: rest =>
    let r := checkVpsAux ok (i + 1) rest
    if ok i then (runningLine v.ip :: r.1, r.2)
    else (downLine v.ip :: r.1, v.ip :: r.2)

/-- `check_vps_status` (bot.py lines 80-101): returns the status lines and
the alert messages sent (one per admin id when at least one host is down). -/
def check_vps_status (vpsList : List VPS) (ok : Nat → Bool) :
    List String × List (Int × String) :=
  let r := checkVpsAux ok 0 vpsList
  (r.1, if r.2.isEmpty then [] else ADMIN_IDS.map (fun a => (a, downAlertMsg r.2)))

def checkingMsg : String := "⏳ **Checking VPS status...**"

/-- `handle_cvps` (bot.py lines 175-179): no admin gate; probes every host
and reports. -/
def handle_cvps (chat_id : Int) (vpsList : List VPS) (users : UserData)
    (ok : Nat → Bool) : HandlerOut :=
  let r := check_vps_status vpsList ok
  ⟨((chat_id, checkingMsg) :: r.2) ++
     [(chat_id, "📡 **VPS STATUS:**\n" ++ String.intercalate "\n" r.1)],
   vpsList, users, [], vpsList.map (fun v => RemoteCall.probe v.ip)⟩

def avpsUsageMsg : String := "⚠️ **Usage:** /avps `<IP>` `<USER>` `<PASSWORD>`"

/-- `handle_avps` (bot.py lines 181-195). -/
def handle_avps (chat_id : Int) (text : String) (vpsList : List VPS)
    (users : UserData) : HandlerOut :=
  if !is_admin chat_id then
    ⟨[(chat_id, adminOnlyMsg)], vpsList, users, [], []⟩
  else
    let command := pySplit text
    if command.length != 4 then
      ⟨[(chat_id, avpsUsageMsg)], vpsList, users, [], []⟩
    else
      let ip := command.getD 1 ""
      ⟨[(chat_id, "✅ **VPS `" ++ ip ++ "` added!** ✨")],
       vpsList ++ [⟨ip, command.getD 2 "", command.getD 3 "", false⟩], users, [], []⟩

def uploadPromptIpMsg : String :=
  "🔢 **Please enter the IP address of the VPS where you want to upload the file:**"

/-- `handle_upload_start` (bot.py lines 197-204). -/
def handle_upload_start (chat_id : Int) (vpsList : List VPS)
    (users : UserData) : HandlerOut :=
  if !is_admin chat_id then
    ⟨[(chat_id, adminOnlyMsg)], vpsList, users, [], []⟩
  else
    ⟨[(chat_id, uploadPromptIpMsg)], vpsList, setUser users chat_id UploadStep.uploadIp, [], []⟩

/-- `next((vps for vps in VPS_LIST if vps["ip"] == ip), None)`. -/
def findVps (vpsList : List VPS) (ip : String) : Option VPS :=
  vpsList.find? (fun v => v.ip == ip)

def vpsNotFoundMsg (ip : String) : String := "❌ **VPS with IP `" ++ ip ++ "` not found!**"

def uploadPromptFileMsg : String := "📤 **Please upload the file now.**"

/-- `handle_upload_ip` (bot.py lines 206-214): on an unknown address it
replies and returns with `user_data` untouched. -/
def handle_upload_ip (chat_id : Int) (ip : String) (vpsList : List VPS)
    (users : UserData) : HandlerOut :=
  match findVps vpsList ip with
  | none => ⟨[(chat_id, vpsNotFoundMsg ip)], vpsList, users, [], []⟩
  | some _ =>
    ⟨[(chat_id, uploadPromptFileMsg)], vpsList,
     setUser users chat_id (UploadStep.uploadFile ip), [], []⟩

def uploadStartFirstMsg : String :=
  "❌ **Please start the upload process using the `/upload` command.**"

/-- `handle_file_upload` (bot.py lines 216-251). The Telegram download, local
temp file and ssh/sftp session of the `try` block are abstracted into the
`outcome` oracle; the `finally` clause deletes the requester's `user_data`
entry on every path through the `try` block. The `vps`-not-found early
return precedes the `try`, so it does not clear the entry. -/
def handle_file_upload (chat_id : Int) (file_name : String) (vpsList : List VPS)
    (users : UserData) (outcome : SftpOutcome) : HandlerOut :=
  match lookupUser users chat_id with
  | some (UploadStep.uploadFile ip) =>
    (match findVps vpsList ip with
     | none => ⟨[(chat_id, vpsNotFoundMsg ip)], vpsList, users, [], []⟩
     | some _ =>
       match outcome with
       | .ok =>
         ⟨[(chat_id, "✅ **File `" ++ file_name ++ "` uploaded successfully to `" ++ ip ++ "`!**")],
          vpsList, eraseUser users chat_id, [],
          [RemoteCall.sftpPut ip file_name ("/root/" ++ file_name)]⟩
       | .failBeforePut msg =>
         ⟨[(chat_id, "❌ **Error uploading file to `" ++ ip ++ "`:** " ++ msg)],
          vpsList, eraseUser users chat_id, [], []⟩
       | .failAfterPut msg =>
         ⟨[(chat_id, "❌ **Error uploading file to `" ++ ip ++ "`:** " ++ msg)],
          vpsList, eraseUser users chat_id, [],
          [RemoteCall.sftpPut ip file_name ("/root/" ++ file_name)]⟩)
  | _ => ⟨[(chat_id, uploadStartFirstMsg)], vpsList, users, [], []⟩

/-- `handle_ls` (bot.py lines 253-284). -/
def handle_ls (chat_id : Int) (text : String) (vpsList : List VPS)
    (users : UserData) (outcome : ExecOutcome) : HandlerOut :=
  if !is_admin chat_id then
    ⟨[(chat_id, adminOnlyMsg)], vpsList, users, [], []⟩
  else
    let command := pySplit text
    if command.length != 2 then
      ⟨[(chat_id, "⚠️ **Usage:** /ls `<IP>`")], vpsList, users, [], []⟩
    else
      let ip := command.getD 1 ""
      match findVps vpsList ip with
      | none => ⟨[(chat_id, vpsNotFoundMsg ip)], vpsList, users, [], []⟩
      | some _ =>
        match outcome with
        | .ok output _ =>
          let ls_output := pyStrip output
          ⟨[(chat_id,
             if ls_output != "" then
               "📂 **Files on `" ++ ip ++ "`:**\n```\n" ++ ls_output ++ "\n```"
             else
               "❌ **No files found on `" ++ ip ++ "`.**")],
           vpsList, users, [], [RemoteCall.execCmd ip "ls -p | grep -v /"]⟩
        | .exc msg =>
          ⟨[(chat_id, "❌ **Error executing `ls` on `" ++ ip ++ "`:** " ++ msg)],
           vpsList, users, [], []⟩

/-- `handle_delete` (bot.py lines 286-317). -/
def handle_delete (chat_id : Int) (text : String) (vpsList : List VPS)
    (users : UserData) (outcome : ExecOutcome) : HandlerOut :=
  if !is_admin chat_id then
    ⟨[(chat_id, adminOnlyMsg)], vpsList, users, [], []⟩
  else
    let command := pySplit text
    if command.length != 3 then
      ⟨[(chat_id, "⚠️ **Usage:** /delete `<IP>` `<file_or_directory>`")], vpsList, users, [], []⟩
    else
      let ip := command.getD 1 ""
      let file_or_dir := command.getD 2 ""
      match findVps vpsList ip with
      | none => ⟨[(chat_id, vpsNotFoundMsg ip)], vpsList, users, [], []⟩
      | some _ =>
        match outcome with
        | .ok _ err =>
          let e := pyStrip err
          ⟨[(chat_id,
             if e != "" then
               "❌ **Error deleting `" ++ file_or_dir ++ "` on `" ++ ip ++ "`:** " ++ e
             else
               "✅ **Successfully deleted `" ++ file_or_dir ++ "` on `" ++ ip ++ "`.**")],
           vpsList, users, [], [RemoteCall.execCmd ip ("rm -rf " ++ file_or_dir)]⟩
        | .exc msg =>
          ⟨[(chat_id, "❌ **Error executing `delete` on `" ++ ip ++ "`:** " ++ msg)],
           vpsList, users, [], []⟩

/-- `handle_terminal` (bot.py lines 319-351): note `split(maxsplit=2)`. -/
def handle_terminal (chat_id : Int) (text : String) (vpsList : List VPS)
    (users : UserData) (outcome : ExecOutcome) : HandlerOut :=
  if !is_admin chat_id then
    ⟨[(chat_id, adminOnlyMsg)], vpsList, users, [], []⟩
  else
    let command := pySplitMax2 text
    if command.length != 3 then
      ⟨[(chat_id, "⚠️ **Usage:** /terminal `<IP>` `<COMMAND>`")], vpsList, users, [], []⟩
    else
      let ip := command.getD 1 ""
      let terminal_command := command.getD 2 ""
      match findVps vpsList ip with
      | none => ⟨[(chat_id, vpsNotFoundMsg ip)], vpsList, users, [], []⟩
      | some _ =>
        match outcome with
        | .ok output err =>
          let o := pyStrip output
          let e := pyStrip err
          ⟨[(chat_id,
             if e != "" then
               "❌ **Error executing command on `" ++ ip ++ "`:**\n```\n" ++ e ++ "\n```"
             else
               "✅ **Command output from `" ++ ip ++ "`:**\n```\n" ++ o ++ "\n```")],
           vpsList, users, [], [RemoteCall.execCmd ip terminal_command]⟩
        | .exc msg =>
          ⟨[(chat_id, "❌ **Error executing command on `" ++ ip ++ "`:** " ++ msg)],
           vpsList, users, [], []⟩

/-- `handle_chmod` (bot.py lines 353-384). -/
def handle_chmod (chat_id : Int) (text : String) (vpsList : List VPS)
    (users : UserData) (outcome : ExecOutcome) : HandlerOut :=
  if !is_admin chat_id then
    ⟨[(chat_id, adminOnlyMsg)], vpsList, users, [], []⟩
  else
    let command := pySplit text
    if command.length != 2 then
      ⟨[(chat_id, "⚠️ **Usage:** /chmod `<IP>`")], vpsList, users, [], []⟩
    else
      let ip := command.getD 1 ""
      match findVps vpsList ip with
      | none => ⟨[(chat_id, vpsNotFoundMsg ip)], vpsList, users, [], []⟩
      | some _ =>
        match outcome with
        | .ok _ err =>
          let e := pyStrip err
          ⟨[(chat_id,
             if e != "" then
               "❌ **Error executing `chmod +x *` on `" ++ ip ++ "`:** " ++ e
             else
               "✅ **Successfully executed `chmod +x *` on `" ++ ip ++ "`.**")],
           vpsList, users, [], [RemoteCall.execCmd ip "chmod +x *"]⟩
        | .exc msg =>
          ⟨[(chat_id, "❌ **Error executing `chmod +x *` on `" ++ ip ++ "`:** " ++ msg)],
           vpsList, users, [], []⟩

/-- A host record as serialized in `config.json`: the `busy` field may be
absent in a hand-edited file. -/
structure StoredVPS where
  ip : String
  user : String
  password : String
  busy : Option Bool
deriving DecidableEq, Repr

/-- `save_config` (bot.py lines 52-55): `json.dump` writes every field of
every in-memory record. -/
def save_config (vpsList : List VPS) : List StoredVPS :=
  vpsList.map (fun v => ⟨v.ip, v.user, v.password, some v.busy⟩)

/-- Config load plus the `if "busy" not in vps: vps["busy"] = False`
backfill loop (bot.py lines 57-65). -/
def load_config (stored : List StoredVPS) : List VPS :=
  stored.map (fun s => ⟨s.ip, s.user, s.password, s.busy.getD false⟩)

def helpMsg : String :=
  "\n🚀 **DDoS Bot Commands** 🚀\n\nAdmin Commands:\n/attack <IP> <PORT> <TIME> <THREADS> - Start DDoS attack\n/cvps - Check VPS status\n/avps <IP> <USER> <PASS> - Add new VPS\n/upload - Upload files to VPS\n/ls <IP> - List files on VPS\n/delete <IP> <FILE> - Delete file\n/terminal <IP> <CMD> - Run command\n/chmod <IP> - Make files executable\n\nAll Users:\n/start - Show this help message\n/help - Show available commands\n"

def unknownCmdMsg : String := "❌ **Unknown command. Use `/help` to see available commands.**"

/-- `text.startswith("/")`. -/
def startsSlash (s : String) : Bool :=
  match s.toList with
  | '/' :: _ => true
  | _ => false

/-- The outcome oracles a routing step may need. -/
structure Oracles where
  probe : Nat → Bool
  execOutcome : ExecOutcome
  sftp : SftpOutcome

/-- One text-message dispatch step of `main` in `bot.py` (lines 416-450),
for an update carrying a text message (the document branch is
`handle_file_upload`, reached only for document messages). -/
def routeText (orc : Oracles) (chat_id : Int) (rawText : String)
    (vpsList : List VPS) (users : UserData) : HandlerOut :=
  let text := pyStrip rawText
  if text == "/start" || text == "/help" then
    ⟨[(chat_id, helpMsg)], vpsList, users, [], []⟩
  else if startsSlash text then
    let command := (pySplit text).getD 0 ""
    if command == "/attack" then handle_attack chat_id text vpsList users
    else if command == "/cvps" then handle_cvps chat_id vpsList users orc.probe
    else if command == "/avps" then handle_avps chat_id text vpsList users
    else if command == "/upload" then handle_upload_start chat_id vpsList users
    else if command == "/ls" then handle_ls chat_id text vpsList users orc.execOutcome
    else if command == "/delete" then handle_delete chat_id text vpsList users orc.execOutcome
    else if command == "/terminal" then handle_terminal chat_id text vpsList users orc.execOutcome
    else if command == "/chmod" then handle_chmod chat_id text vpsList users orc.execOutcome
    else ⟨[(chat_id, unknownCmdMsg)], vpsList, users, [], []⟩
  else if lookupUser users chat_id == some UploadStep.uploadIp then
    handle_upload_ip chat_id text vpsList users
  else
    ⟨[], vpsList, users, [], []⟩

/-- A dummy host record used with `List.getD`. -/
def dummyVPS : VPS := ⟨"", "", "", false⟩

/-- A concrete free host record used by the witnesses. -/
def testVps : VPS := ⟨"1.2.3.4", "u", "p", false⟩

/-- A concrete oracle bundle used by the witnesses. -/
def testOrc : Oracles := ⟨fun _ => true, ExecOutcome.exc "e", SftpOutcome.ok⟩

lemma find?_filter_ne (d : UserData) (c : Int) :
    (d.filter (fun p => p.1 != c)).find? (fun p => p.1 == c) = none := by
  rw [List.find?_eq_none]
  intro x hx
  have h := (List.mem_filter.mp hx).2
  simp only [bne_iff_ne, ne_eq] at h
  simp [h]

lemma lookupUser_setUser (d : UserData) (c : Int) (s : UploadStep) :
    lookupUser (setUser d c s) c = some s := by
  unfold lookupUser setUser
  rw [List.find?_append, find?_filter_ne]
  simp

lemma lookupUser_eraseUser (d : UserData) (c : Int) :
    lookupUser (eraseUser d c) c = none := by
  unfold lookupUser eraseUser
  rw [find?_filter_ne]
  rfl

lemma out_ne_of_msgs_ne {a b : HandlerOut} (h : a.msgs ≠ b.msgs) : a ≠ b :=
  fun e => h (congrArg HandlerOut.msgs e)

lemma out_ne_of_jobs_ne {a b : HandlerOut} (h : a.jobs ≠ b.jobs) : a ≠ b :=
  fun e => h (congrArg HandlerOut.jobs e)

lemma map_mark_busy_of_all_busy (l : List VPS)
    (h : l.filter (fun v => !v.busy) = []) :
    l.map (fun v => if v.busy then v else { v with busy := true }) = l := by
  induction l with
  | nil => rfl
  | cons v rest ih =>
    by_cases hb : v.busy
    · have h' : rest.filter (fun v => !v.busy) = [] := by
        simpa [List.filter_cons, hb] using h
      simp [hb, ih h']
    · simp [List.filter_cons, hb] at h

/-- C1: an admin `/attack` with well-formed arguments whose parsed duration
exceeds 240 or whose parsed thread count exceeds 5000 produces exactly one
fixed rejection message, starts zero worker threads, and leaves the host
list (hence every busy flag) and the pending-upload state unchanged. -/
theorem attack_range_rejection (chat_id : Int) (text : String) (vpsList : List VPS)
    (users : UserData) (port dur thr : Int)
    (hadmin : is_admin chat_id = true)
    (h3 : 3 ≤ (pySplit text).length) (h5 : (pySplit text).length ≤ 5)
    (hp : pyToInt ((pySplit text).getD 2 "") = some port)
    (ht : pyToInt (attackTimeStr (pySplit text)) = some dur)
    (hh : pyToInt (attackThreadsStr (pySplit text)) = some thr)
    (hrange : 240 < dur ∨ 5000 < thr) :
    handle_attack chat_id text vpsList users =
        ⟨[(chat_id, maxDurationMsg)], vpsList, users, [], []⟩ ∨
    handle_attack chat_id text vpsList users =
        ⟨[(chat_id, maxThreadsMsg)], vpsList, users, [], []⟩ := by
  have hlt : ¬ ((pySplit text).length < 3) := by omega
  have hgt : ¬ ((pySplit text).length > 5) := by omega
  simp only [List.getD_eq_getElem?_getD] at hp
  by_cases hd : dur > 240
  · left
    simp [handle_attack, hadmin, hlt, hgt, hp, ht, hh, hd]
  · right
    have hth : thr > 5000 := hrange.resolve_left hd
    simp [handle_attack, hadmin, hlt, hgt, hp, ht, hh, hd, hth]

/-- Witness for the range rejection: an admin `/attack` with duration 241. -/
theorem attack_range_rejection_witness :
    is_admin 1419969308 = true ∧
    (handle_attack 1419969308 "/attack 1.1.1.1 80 241 100" [testVps] [] =
        ⟨[(1419969308, maxDurationMsg)], [testVps], [], [], []⟩ ∨
     handle_attack 1419969308 "/attack 1.1.1.1 80 241 100" [testVps] [] =
        ⟨[(1419969308, maxThreadsMsg)], [testVps], [], [], []⟩) :=
  ⟨by decide,
   attack_range_rejection 1419969308 "/attack 1.1.1.1 80 241 100" [testVps] []
     80 241 100 (by decide) (by decide) (by decide) (by decide) (by decide)
     (by decide) (Or.inl (by decide))⟩

/-- C3: an admin `/attack` with valid in-range arguments dispatches exactly
to the hosts whose busy flag is false at invocation time, each worker
receiving its host record already marked busy; the host list afterwards has
every free host marked busy and the pending-upload state is untouched; when
no host is free the dispatcher reports all-busy and mutates nothing. -/
theorem attack_dispatches_free_subset (chat_id : Int) (text : String)
    (vpsList : List VPS) (users : UserData) (port dur thr : Int)
    (hadmin : is_admin chat_id = true)
    (h3 : 3 ≤ (pySplit text).length) (h5 : (pySplit text).length ≤ 5)
    (hp : pyToInt ((pySplit text).getD 2 "") = some port)
    (ht : pyToInt (attackTimeStr (pySplit text)) = some dur)
    (hh : pyToInt (attackThreadsStr (pySplit text)) = some thr)
    (hdur : dur ≤ 240) (hthr : thr ≤ 5000) :
    ((handle_attack chat_id text vpsList users).jobs.map AttackJob.vps =
       (get_available_vps vpsList).map (fun v => { v with busy := true })) ∧
    (∀ j ∈ (handle_attack chat_id text vpsList users).jobs, j.vps.busy = true) ∧
    ((handle_attack chat_id text vpsList users).vps =
       vpsList.map (fun v => if v.busy then v else { v with busy := true })) ∧
    ((handle_attack chat_id text vpsList users).users = users) ∧
    (get_available_vps vpsList = [] →
       handle_attack chat_id text vpsList users =
         ⟨[(chat_id, allBusyMsg)], vpsList, users, [], []⟩) := by
  have hlt : ¬ ((pySplit text).length < 3) := by omega
  have hgt : ¬ ((pySplit text).length > 5) := by omega
  have hd : ¬ (dur > 240) := by omega
  have hth : ¬ (thr > 5000) := by omega
  simp only [List.getD_eq_getElem?_getD] at hp
  by_cases hav : get_available_vps vpsList = []
  · have hbusy := map_mark_busy_of_all_busy vpsList (by simpa [get_available_vps] using hav)
    simp [handle_attack, hadmin, hlt, hgt, hp, ht, hh, hd, hth, hav, hbusy]
  · refine ⟨?_, ?_, ?_, ?_, fun he => absurd he hav⟩ <;>
      simp [handle_attack, hadmin, hlt, hgt, hp, ht, hh, hd, hth, hav,
        List.map_map, Function.comp]

/-- Witness for the free-subset dispatch: one free and one busy host. -/
theorem attack_dispatches_free_subset_witness :
    is_admin 1419969308 = true ∧
    (((handle_attack 1419969308 "/attack 1.1.1.1 80 120 100" [testVps, ⟨"5.6.7.8", "u", "p", true⟩] []).jobs.map AttackJob.vps =
       (get_available_vps [testVps, ⟨"5.6.7.8", "u", "p", true⟩]).map (fun v => { v with busy := true })) ∧
     (∀ j ∈ (handle_attack 1419969308 "/attack 1.1.1.1 80 120 100" [testVps, ⟨"5.6.7.8", "u", "p", true⟩] []).jobs, j.vps.busy = true) ∧
     ((handle_attack 1419969308 "/attack 1.1.1.1 80 120 100" [testVps, ⟨"5.6.7.8", "u", "p", true⟩] []).vps =
       [testVps, ⟨"5.6.7.8", "u", "p", true⟩].map (fun v => if v.busy then v else { v with busy := true })) ∧
     ((handle_attack 1419969308 "/attack 1.1.1.1 80 120 100" [testVps, ⟨"5.6.7.8", "u", "p", true⟩] []).users = []) ∧
     (get_available_vps [testVps, ⟨"5.6.7.8", "u", "p", true⟩] = [] →
       handle_attack 1419969308 "/attack 1.1.1.1 80 120 100" [testVps, ⟨"5.6.7.8", "u", "p", true⟩] [] =
         ⟨[(1419969308, allBusyMsg)], [testVps, ⟨"5.6.7.8", "u", "p", true⟩], [], [], []⟩)) :=
  ⟨by decide,
   attack_dispatches_free_subset 1419969308 "/attack 1.1.1.1 80 120 100"
     [testVps, ⟨"5.6.7.8", "u", "p", true⟩] [] 80 120 100 (by decide) (by decide)
     (by decide) (by decide) (by decide) (by decide) (by decide) (by decide)⟩

lemma singleton_msgs_ne (c : Int) {s1 s2 : String} (h : s1 ≠ s2)
    (v v' : List VPS) (u u' : UserData) (j j' : List AttackJob)
    (r r' : List RemoteCall) :
    (⟨[(c, s1)], v, u, j, r⟩ : HandlerOut) ≠ ⟨[(c, s2)], v', u', j', r'⟩ := by
  intro e
  have hm := congrArg HandlerOut.msgs e
  simp only [List.cons.injEq, Prod.mk.injEq, and_true, true_and] at hm
  exact h hm

lemma handle_attack_intArgs (chat_id : Int) (text : String) (vpsList : List VPS)
    (users : UserData)
    (hadmin : is_admin chat_id = true)
    (h3 : 3 ≤ (pySplit text).length) (h5 : (pySplit text).length ≤ 5)
    (hbad : pyToInt ((pySplit text).getD 2 "") = none ∨
            pyToInt (attackTimeStr (pySplit text)) = none ∨
            pyToInt (attackThreadsStr (pySplit text)) = none) :
    handle_attack chat_id text vpsList users =
      ⟨[(chat_id, intArgsMsg)], vpsList, users, [], []⟩ := by
  have hlt : ¬ ((pySplit text).length < 3) := by omega
  have hgt : ¬ ((pySplit text).length > 5) := by omega
  simp only [List.getD_eq_getElem?_getD] at hbad
  rcases hbad with h | h | h
  · rcases ht : pyToInt (attackTimeStr (pySplit text)) with _ | d <;>
      rcases hh : pyToInt (attackThreadsStr (pySplit text)) with _ | th <;>
        simp [handle_attack, hadmin, hlt, hgt, h, ht, hh]
  · rcases hp : pyToInt ((pySplit text)[2]?.getD "") with _ | p <;>
      rcases hh : pyToInt (attackThreadsStr (pySplit text)) with _ | th <;>
        simp [handle_attack, hadmin, hlt, hgt, h, hp, hh]
  · rcases hp : pyToInt ((pySplit text)[2]?.getD "") with _ | p <;>
      rcases ht : pyToInt (attackTimeStr (pySplit text)) with _ | d <;>
        simp [handle_attack, hadmin, hlt, hgt, h, hp, ht]

/-- C5 (amended): for an admin `/attack` with accepted argument count, the
dispatcher validates that port, duration and thread-count parse as
integers, sending the fixed error message and dispatching to no host when
any of those three does not; the target argument is not integer-validated. -/
theorem attack_integer_validation (chat_id : Int) (text : String)
    (vpsList : List VPS) (users : UserData)
    (hadmin : is_admin chat_id = true)
    (h3 : 3 ≤ (pySplit text).length) (h5 : (pySplit text).length ≤ 5)
    (hbad : pyToInt ((pySplit text).getD 2 "") = none ∨
            pyToInt (attackTimeStr (pySplit text)) = none ∨
            pyToInt (attackThreadsStr (pySplit text)) = none) :
    handle_attack chat_id text vpsList users =
      ⟨[(chat_id, intArgsMsg)], vpsList, users, [], []⟩ :=
  handle_attack_intArgs chat_id text vpsList users hadmin h3 h5 hbad

/-- Witness for the integer validation: a non-integer port argument. -/
theorem attack_integer_validation_witness :
    is_admin 1419969308 = true ∧
    pyToInt ((pySplit "/attack 1.1.1.1 eighty 120 100").getD 2 "") = none ∧
    handle_attack 1419969308 "/attack 1.1.1.1 eighty 120 100" [testVps] [] =
      ⟨[(1419969308, intArgsMsg)], [testVps], [], [], []⟩ :=
  ⟨by decide, by decide,
   attack_integer_validation 1419969308 "/attack 1.1.1.1 eighty 120 100" [testVps] []
     (by decide) (by decide) (by decide) (Or.inl (by decide))⟩

/-- C5 counterexample: the claim also requires the target to parse as an
integer, but an admin `/attack` whose target is the non-integer `abc` is
dispatched (one worker started, no error message) rather than rejected. -/
theorem attack_target_not_validated :
    pyToInt "abc" = none ∧
    (pySplit "/attack abc 80 120 100").getD 1 "" = "abc" ∧
    (handle_attack 1419969308 "/attack abc 80 120 100" [testVps] []).jobs.length = 1 ∧
    (handle_attack 1419969308 "/attack abc 80 120 100" [testVps] []).msgs ≠
      [(1419969308, intArgsMsg)] := by
  decide

/-- C9 (amended): the omitted duration defaults to 120 seconds and the
omitted thread count to 100; both defaults satisfy the range checks, so an
admin `/attack <ip> <port>` is never rejected for exceeding the duration or
thread limit, and an admin `/attack <ip> <port> <time>` is never rejected
for exceeding the thread limit (it is still rejected for a duration above
240). -/
theorem attack_default_args (chat_id : Int) (text : String) (vpsList : List VPS)
    (users : UserData) (hadmin : is_admin chat_id = true) :
    DEFAULT_TIME_DURATION = 120 ∧ DEFAULT_THREADS = 100 ∧
    pyToInt (toString DEFAULT_TIME_DURATION) = some DEFAULT_TIME_DURATION ∧
    pyToInt (toString DEFAULT_THREADS) = some DEFAULT_THREADS ∧
    DEFAULT_TIME_DURATION ≤ 240 ∧ DEFAULT_THREADS ≤ 5000 ∧
    ((pySplit text).length = 3 →
      handle_attack chat_id text vpsList users ≠
          ⟨[(chat_id, maxDurationMsg)], vpsList, users, [], []⟩ ∧
      handle_attack chat_id text vpsList users ≠
          ⟨[(chat_id, maxThreadsMsg)], vpsList, users, [], []⟩) ∧
    ((pySplit text).length = 4 →
      handle_attack chat_id text vpsList users ≠
          ⟨[(chat_id, maxThreadsMsg)], vpsList, users, [], []⟩) := by
  refine ⟨rfl, rfl, by decide, by decide, by decide, by decide, ?_, ?_⟩
  · intro hlen
    have hlt : ¬ ((pySplit text).length < 3) := by omega
    have hgt : ¬ ((pySplit text).length > 5) := by omega
    have htS : attackTimeStr (pySplit text) = "120" := by
      rw [attackTimeStr, if_neg (by omega)]
      decide
    have hhS : attackThreadsStr (pySplit text) = "100" := by
      rw [attackThreadsStr, if_neg (by omega)]
      decide
    have ht : pyToInt (attackTimeStr (pySplit text)) = some 120 := by
      rw [htS]; decide
    have hh : pyToInt (attackThreadsStr (pySplit text)) = some 100 := by
      rw [hhS]; decide
    rcases hp : pyToInt ((pySplit text).getD 2 "") with _ | port
    · have hout := handle_attack_intArgs chat_id text vpsList users hadmin
        (by omega) (by omega) (Or.inl hp)
      rw [hout]
      exact ⟨singleton_msgs_ne _ (by decide) _ _ _ _ _ _ _ _,
        singleton_msgs_ne _ (by decide) _ _ _ _ _ _ _ _⟩
    · simp only [List.getD_eq_getElem?_getD] at hp
      have hd : ¬ ((120 : Int) > 240) := by decide
      have h5k : ¬ ((100 : Int) > 5000) := by decide
      by_cases hav : get_available_vps vpsList = []
      · have hout : handle_attack chat_id text vpsList users =
            ⟨[(chat_id, allBusyMsg)], vpsList, users, [], []⟩ := by
          simp [handle_attack, hadmin, hlt, hgt, hp, ht, hh, hd, h5k, hav]
        rw [hout]
        exact ⟨singleton_msgs_ne _ (by decide) _ _ _ _ _ _ _ _,
          singleton_msgs_ne _ (by decide) _ _ _ _ _ _ _ _⟩
      · constructor <;>
          · apply out_ne_of_jobs_ne
            simp [handle_attack, hadmin, hlt, hgt, hp, ht, hh, hd, h5k, hav]
  · intro hlen
    have hlt : ¬ ((pySplit text).length < 3) := by omega
    have hgt : ¬ ((pySplit text).length > 5) := by omega
    have hhS : attackThreadsStr (pySplit text) = "100" := by
      rw [attackThreadsStr, if_neg (by omega)]
      decide
    have hh : pyToInt (attackThreadsStr (pySplit text)) = some 100 := by
      rw [hhS]; decide
    rcases hp : pyToInt ((pySplit text).getD 2 "") with _ | port
    · have hout := handle_attack_intArgs chat_id text vpsList users hadmin
        (by omega) (by omega) (Or.inl hp)
      rw [hout]
      exact singleton_msgs_ne _ (by decide) _ _ _ _ _ _ _ _
    · rcases ht : pyToInt (attackTimeStr (pySplit text)) with _ | dur
      · have hout := handle_attack_intArgs chat_id text vpsList users hadmin
          (by omega) (by omega) (Or.inr (Or.inl ht))
        rw [hout]
        exact singleton_msgs_ne _ (by decide) _ _ _ _ _ _ _ _
      · simp only [List.getD_eq_getElem?_getD] at hp
        have h5k : ¬ ((100 : Int) > 5000) := by decide
        by_cases hd : dur > 240
        · have hout : handle_attack chat_id text vpsList users =
              ⟨[(chat_id, maxDurationMsg)], vpsList, users, [], []⟩ := by
            simp [handle_attack, hadmin, hlt, hgt, hp, ht, hh, hd]
          rw [hout]
          exact singleton_msgs_ne _ (by decide) _ _ _ _ _ _ _ _
        · by_cases hav : get_available_vps vpsList = []
          · have hout : handle_attack chat_id text vpsList users =
                ⟨[(chat_id, allBusyMsg)], vpsList, users, [], []⟩ := by
              simp [handle_attack, hadmin, hlt, hgt, hp, ht, hh, hd, h5k, hav]
            rw [hout]
            exact singleton_msgs_ne _ (by decide) _ _ _ _ _ _ _ _
          · apply out_ne_of_jobs_ne
            simp [handle_attack, hadmin, hlt, hgt, hp, ht, hh, hd, h5k, hav]

/-- Witness for the default-argument behaviour at a two-argument and (via
the second conjunct) three-argument `/attack`. -/
theorem attack_default_args_witness :
    is_admin 1419969308 = true ∧
    (DEFAULT_TIME_DURATION = 120 ∧ DEFAULT_THREADS = 100 ∧
     pyToInt (toString DEFAULT_TIME_DURATION) = some DEFAULT_TIME_DURATION ∧
     pyToInt (toString DEFAULT_THREADS) = some DEFAULT_THREADS ∧
     DEFAULT_TIME_DURATION ≤ 240 ∧ DEFAULT_THREADS ≤ 5000 ∧
     ((pySplit "/attack 1.1.1.1 80").length = 3 →
       handle_attack 1419969308 "/attack 1.1.1.1 80" [testVps] [] ≠
           ⟨[(1419969308, maxDurationMsg)], [testVps], [], [], []⟩ ∧
       handle_attack 1419969308 "/attack 1.1.1.1 80" [testVps] [] ≠
           ⟨[(1419969308, maxThreadsMsg)], [testVps], [], [], []⟩) ∧
     ((pySplit "/attack 1.1.1.1 80").length = 4 →
       handle_attack 1419969308 "/attack 1.1.1.1 80" [testVps] [] ≠
           ⟨[(1419969308, maxThreadsMsg)], [testVps], [], [], []⟩)) :=
  ⟨by decide, attack_default_args 1419969308 "/attack 1.1.1.1 80" [testVps] [] (by decide)⟩

/-- C9 counterexample: a syntactically well-formed three-argument
`/attack <ip> <port> <time>` with an explicit duration of 300 is rejected
for exceeding the duration limit, so the claim's "never rejected" part
fails for three-argument invocations. -/
theorem attack_explicit_duration_rejected :
    (pySplit "/attack 1.1.1.1 80 300").length = 4 ∧
    pyToInt "300" = some 300 ∧
    handle_attack 1419969308 "/attack 1.1.1.1 80 300" [testVps] [] =
      ⟨[(1419969308, maxDurationMsg)], [testVps], [], [], []⟩ := by
  decide

/-- C2: a host record selected by an attack dispatch (hence free at
invocation time and marked busy when the command is issued) has `busy =
false` — its pre-command value — once its `execute_attack` worker finishes,
whether the remote execution succeeds, reports stderr output, or raises an
exception. -/
theorem execute_attack_busy_roundtrip (vps : VPS) (target : String)
    (port duration threads : Int) (chat_id : Int) (outcome : ExecOutcome)
    (hfree : vps.busy = false) :
    (execute_attack { vps with busy := true } target port duration threads chat_id outcome).1.busy = false ∧
    (execute_attack { vps with busy := true } target port duration threads chat_id outcome).1.busy = vps.busy := by
  cases outcome <;> simp [execute_attack, hfree]

/-- Witness for the busy-flag round trip at a concrete host and an
exception outcome. -/
theorem execute_attack_busy_roundtrip_witness :
    testVps.busy = false ∧
    ((execute_attack { testVps with busy := true } "t" 80 120 100 7 (ExecOutcome.exc "boom")).1.busy = false ∧
     (execute_attack { testVps with busy := true } "t" 80 120 100 7 (ExecOutcome.exc "boom")).1.busy = testVps.busy) :=
  ⟨rfl, execute_attack_busy_roundtrip testVps "t" 80 120 100 7 (ExecOutcome.exc "boom") rfl⟩

lemma checkVpsAux_length (ok : Nat → Bool) (l : List VPS) : ∀ (i : Nat),
    (checkVpsAux ok i l).1.length = l.length := by
  induction l with
  | nil => intro i; rfl
  | cons v rest ih =>
    intro i
    by_cases h : ok i <;> simp [checkVpsAux, h, ih]

lemma checkVpsAux_getD (ok : Nat → Bool) (l : List VPS) : ∀ (i j : Nat), j < l.length →
    (checkVpsAux ok i l).1.getD j "" =
      if ok (i + j) then runningLine ((l.getD j dummyVPS).ip)
      else downLine ((l.getD j dummyVPS).ip) := by
  induction l with
  | nil => intro i j hj; simp at hj
  | cons v rest ih =>
    intro i j hj
    cases j with
    | zero => by_cases h : ok i <;> simp [checkVpsAux, h]
    | succ j =>
      have hj' : j < rest.length := by simpa using hj
      have hrec := ih (i + 1) j hj'
      rw [show i + 1 + j = i + (j + 1) by omega] at hrec
      by_cases h : ok i <;> simpa [checkVpsAux, h] using hrec

lemma checkVpsAux_failed_empty_iff (ok : Nat → Bool) (l : List VPS) : ∀ (i : Nat),
    ((checkVpsAux ok i l).2 = [] ↔ ∀ j, j < l.length → ok (i + j) = true) := by
  induction l with
  | nil => intro i; simp [checkVpsAux]
  | cons v rest ih =>
    intro i
    by_cases h : ok i
    · rw [show (checkVpsAux ok i (v :: rest)).2 = (checkVpsAux ok (i + 1) rest).2 by
        simp [checkVpsAux, h]]
      rw [ih (i + 1)]
      constructor
      · intro hall j hj
        cases j with
        | zero => simpa using h
        | succ j =>
          have := hall j (by simpa using hj)
          rwa [show i + 1 + j = i + (j + 1) by omega] at this
      · intro hall j hj
        have := hall (j + 1) (by simpa using hj)
        rwa [show i + (j + 1) = i + 1 + j by omega] at this
    · rw [show (checkVpsAux ok i (v :: rest)).2 = v.ip :: (checkVpsAux ok (i + 1) rest).2 by
        simp [checkVpsAux, h]]
      exact iff_of_false (by simp)
        (fun hall => h (by simpa using hall 0 (by simp)))

/-- C4: one run of the liveness probe yields exactly one status line per
configured host, in host-list order (RUNNING on connection success, DOWN on
failure), and the down-alert goes out — one message per configured admin
id — if and only if at least one host's connection attempt failed. -/
theorem check_vps_status_report (vpsList : List VPS) (ok : Nat → Bool) :
    (check_vps_status vpsList ok).1.length = vpsList.length ∧
    (∀ j, j < vpsList.length →
      (check_vps_status vpsList ok).1.getD j "" =
        if ok j then runningLine ((vpsList.getD j dummyVPS).ip)
        else downLine ((vpsList.getD j dummyVPS).ip)) ∧
    ((check_vps_status vpsList ok).2 ≠ [] ↔ ∃ j, j < vpsList.length ∧ ok j = false) ∧
    ((∃ j, j < vpsList.length ∧ ok j = false) →
      (check_vps_status vpsList ok).2.map Prod.fst = ADMIN_IDS) := by
  have hiff := checkVpsAux_failed_empty_iff ok vpsList 0
  simp only [Nat.zero_add] at hiff
  refine ⟨checkVpsAux_length ok vpsList 0, ?_, ?_, ?_⟩
  · intro j hj
    have := checkVpsAux_getD ok vpsList 0 j hj
    simpa using this
  · by_cases hf : (checkVpsAux ok 0 vpsList).2 = []
    · have halerts : (check_vps_status vpsList ok).2 = [] := by
        simp [check_vps_status, hf]
      rw [halerts]
      refine iff_of_false (by simp) ?_
      rintro ⟨j, hj, hfail⟩
      rw [hiff.mp hf j hj] at hfail
      exact absurd hfail (by decide)
    · have hfe : (checkVpsAux ok 0 vpsList).2.isEmpty = false := by
        cases hx : (checkVpsAux ok 0 vpsList).2 with
        | nil => exact absurd hx hf
        | cons a b => rfl
      have halerts : (check_vps_status vpsList ok).2 =
          ADMIN_IDS.map (fun a => (a, downAlertMsg (checkVpsAux ok 0 vpsList).2)) := by
        simp [check_vps_status, hfe]
      rw [halerts]
      refine iff_of_true (by simp [ADMIN_IDS]) ?_
      have hnall : ¬ ∀ j, j < vpsList.length → ok j = true := fun hall => hf (hiff.mpr hall)
      push_neg at hnall
      obtain ⟨j, hj, hfail⟩ := hnall
      exact ⟨j, hj, by simpa using hfail⟩
  · intro hex
    have hf : (checkVpsAux ok 0 vpsList).2 ≠ [] := by
      intro hnil
      obtain ⟨j, hj, hfail⟩ := hex
      rw [hiff.mp hnil j hj] at hfail
      exact absurd hfail (by decide)
    have hfe : (checkVpsAux ok 0 vpsList).2.isEmpty = false := by
      cases hx : (checkVpsAux ok 0 vpsList).2 with
      | nil => exact absurd hx hf
      | cons a b => rfl
    simp [check_vps_status, hfe, ADMIN_IDS]

/-- Witness for the liveness probe at a two-host list whose second host
fails: the alert goes to exactly the configured admin ids. -/
theorem check_vps_status_report_witness :
    (1 < ([testVps, ⟨"5.6.7.8", "u", "p", false⟩] : List VPS).length ∧
      (fun i => decide (i = 0)) 1 = false) ∧
    (check_vps_status [testVps, ⟨"5.6.7.8", "u", "p", false⟩]
        (fun i => decide (i = 0))).2.map Prod.fst = ADMIN_IDS :=
  ⟨by decide,
   (check_vps_status_report [testVps, ⟨"5.6.7.8", "u", "p", false⟩]
       (fun i => decide (i = 0))).2.2.2 ⟨1, by decide, by decide⟩⟩

/-- C7: saving the in-memory host list and reloading it yields the identical
record sequence (order and fields preserved), and a stored record missing
the `busy` field is backfilled with `busy = false` on load. -/
theorem config_roundtrip (l : List VPS) (s : StoredVPS) (hmissing : s.busy = none) :
    load_config (save_config l) = l ∧
    load_config [s] = [⟨s.ip, s.user, s.password, false⟩] := by
  constructor
  · induction l with
    | nil => rfl
    | cons v rest ih => simpa [load_config, save_config] using ih
  · simp [load_config, hmissing]

/-- Witness for the config round trip at a concrete host list and a
concrete `busy`-less stored record. -/
theorem config_roundtrip_witness :
    (⟨"a", "b", "c", none⟩ : StoredVPS).busy = none ∧
    (load_config (save_config [testVps]) = [testVps] ∧
     load_config [⟨"a", "b", "c", none⟩] = [⟨"a", "b", "c", false⟩]) :=
  ⟨rfl, config_roundtrip [testVps] ⟨"a", "b", "c", none⟩ rfl⟩

/-- C10: when the text supplied during the awaiting-address upload step
matches no host record's address, the handler replies with the not-found
message and leaves the host list and the requester's `user_data` entry
(still at the awaiting-address step) unchanged, so the routing loop treats
the next plain-text message as an address again without a new `/upload`. -/
theorem upload_unknown_ip_retains_state (chat_id : Int) (ip : String)
    (vpsList : List VPS) (users : UserData) (orc : Oracles) (t : String)
    (hfind : findVps vpsList ip = none)
    (hstep : lookupUser users chat_id = some UploadStep.uploadIp) :
    handle_upload_ip chat_id ip vpsList users =
      ⟨[(chat_id, vpsNotFoundMsg ip)], vpsList, users, [], []⟩ ∧
    (startsSlash (pyStrip t) = false →
      routeText orc chat_id t vpsList users = handle_upload_ip chat_id (pyStrip t) vpsList users) := by
  constructor
  · simp [handle_upload_ip, hfind]
  · intro hslash
    have h1 : (pyStrip t == "/start") = false := by
      cases h : pyStrip t == "/start"
      · rfl
      · rw [eq_of_beq h] at hslash
        exact absurd hslash (by decide)
    have h2 : (pyStrip t == "/help") = false := by
      cases h : pyStrip t == "/help"
      · rfl
      · rw [eq_of_beq h] at hslash
        exact absurd hslash (by decide)
    unfold routeText
    simp [h1, h2, hslash, hstep]

/-- Witness for the unknown-address upload step at concrete inputs. -/
theorem upload_unknown_ip_retains_state_witness :
    findVps [testVps] "9.9.9.9" = none ∧
    lookupUser [(7, UploadStep.uploadIp)] 7 = some UploadStep.uploadIp ∧
    (handle_upload_ip 7 "9.9.9.9" [testVps] [(7, UploadStep.uploadIp)] =
        ⟨[(7, vpsNotFoundMsg "9.9.9.9")], [testVps], [(7, UploadStep.uploadIp)], [], []⟩ ∧
     (startsSlash (pyStrip "8.8.8.8") = false →
       routeText testOrc 7 "8.8.8.8" [testVps] [(7, UploadStep.uploadIp)] =
         handle_upload_ip 7 (pyStrip "8.8.8.8") [testVps] [(7, UploadStep.uploadIp)])) :=
  ⟨by decide, by decide,
   upload_unknown_ip_retains_state 7 "9.9.9.9" [testVps] [(7, UploadStep.uploadIp)]
     testOrc "8.8.8.8" (by decide) (by decide)⟩

/-- C6: an upload flow initiated with `/upload` by an admin, then given a
known host address, then given a document, issues at most one remote
file-transfer call — exactly one when the try block succeeds — and the
requester's pending-upload state is cleared on every outcome of the upload
handler (success, failure before the transfer, failure at or after it);
a document from a requester with no pending awaiting-file state performs no
transfer. -/
theorem upload_flow_single_transfer (chat_id : Int) (ip file_name : String)
    (vpsList : List VPS) (users users2 : UserData) (o : SftpOutcome) (v : VPS)
    (hadmin : is_admin chat_id = true)
    (hfind : findVps vpsList ip = some v)
    (hnopending : lookupUser users2 chat_id = none ∨
        lookupUser users2 chat_id = some UploadStep.uploadIp) :
    ((handle_upload_start chat_id vpsList users).calls = [] ∧
     (handle_upload_ip chat_id ip vpsList
        (handle_upload_start chat_id vpsList users).users).calls = [] ∧
     (o = SftpOutcome.ok →
       (handle_file_upload chat_id file_name vpsList
          (handle_upload_ip chat_id ip vpsList
            (handle_upload_start chat_id vpsList users).users).users o).calls =
         [RemoteCall.sftpPut ip file_name ("/root/" ++ file_name)]) ∧
     (handle_file_upload chat_id file_name vpsList
        (handle_upload_ip chat_id ip vpsList
          (handle_upload_start chat_id vpsList users).users).users o).calls.length ≤ 1 ∧
     lookupUser
       (handle_file_upload chat_id file_name vpsList
          (handle_upload_ip chat_id ip vpsList
            (handle_upload_start chat_id vpsList users).users).users o).users chat_id = none) ∧
    (handle_file_upload chat_id file_name vpsList users2 o).calls = [] := by
  have hstart : handle_upload_start chat_id vpsList users =
      ⟨[(chat_id, uploadPromptIpMsg)], vpsList,
       setUser users chat_id UploadStep.uploadIp, [], []⟩ := by
    simp [handle_upload_start, hadmin]
  have hip : handle_upload_ip chat_id ip vpsList (setUser users chat_id UploadStep.uploadIp) =
      ⟨[(chat_id, uploadPromptFileMsg)], vpsList,
       setUser (setUser users chat_id UploadStep.uploadIp) chat_id (UploadStep.uploadFile ip),
       [], []⟩ := by
    simp [handle_upload_ip, hfind]
  have hlook := lookupUser_setUser (setUser users chat_id UploadStep.uploadIp)
    chat_id (UploadStep.uploadFile ip)
  have herase := lookupUser_eraseUser
    (setUser (setUser users chat_id UploadStep.uploadIp) chat_id (UploadStep.uploadFile ip)) chat_id
  refine ⟨⟨?_, ?_, ?_, ?_, ?_⟩, ?_⟩
  · rw [hstart]
  · rw [hstart, hip]
  · intro ho
    subst ho
    rw [hstart, hip]
    simp [handle_file_upload, hlook, hfind]
  · rw [hstart, hip]
    cases o <;> simp [handle_file_upload, hlook, hfind]
  · rw [hstart, hip]
    cases o <;> simp [handle_file_upload, hlook, hfind, herase]
  · rcases hnopending with h | h <;> simp [handle_file_upload, h]

/-- Witness for the upload flow at a concrete admin, host and success
outcome, with an empty pending table for the no-pending part. -/
theorem upload_flow_single_transfer_witness :
    (is_admin 1419969308 = true ∧
     findVps [testVps] "1.2.3.4" = some testVps ∧
     (lookupUser ([] : UserData) 1419969308 = none ∨
       lookupUser ([] : UserData) 1419969308 = some UploadStep.uploadIp)) ∧
    (((handle_upload_start 1419969308 [testVps] []).calls = [] ∧
      (handle_upload_ip 1419969308 "1.2.3.4" [testVps]
         (handle_upload_start 1419969308 [testVps] []).users).calls = [] ∧
      (SftpOutcome.ok = SftpOutcome.ok →
        (handle_file_upload 1419969308 "f.bin" [testVps]
           (handle_upload_ip 1419969308 "1.2.3.4" [testVps]
             (handle_upload_start 1419969308 [testVps] []).users).users SftpOutcome.ok).calls =
          [RemoteCall.sftpPut "1.2.3.4" "f.bin" ("/root/" ++ "f.bin")]) ∧
      (handle_file_upload 1419969308 "f.bin" [testVps]
         (handle_upload_ip 1419969308 "1.2.3.4" [testVps]
           (handle_upload_start 1419969308 [testVps] []).users).users SftpOutcome.ok).calls.length ≤ 1 ∧
      lookupUser
        (handle_file_upload 1419969308 "f.bin" [testVps]
           (handle_upload_ip 1419969308 "1.2.3.4" [testVps]
             (handle_upload_start 1419969308 [testVps] []).users).users SftpOutcome.ok).users 1419969308 = none) ∧
     (handle_file_upload 1419969308 "f.bin" [testVps] [] SftpOutcome.ok).calls = []) :=
  ⟨⟨by decide, by decide, Or.inl (by decide)⟩,
   upload_flow_single_transfer 1419969308 "1.2.3.4" "f.bin" [testVps] [] []
     SftpOutcome.ok testVps (by decide) (by decide) (Or.inl (by decide))⟩

/-- C8: each of `/attack`, `/avps`, `/upload`, `/ls`, `/delete`,
`/terminal` and `/chmod` invoked by a chat id outside the admin list yields
exactly the fixed admins-only rejection — no host-list mutation, no
pending-upload change, no worker threads, no remote calls — while
`/cvps` runs its probe of every host for any caller, with no admin check. -/
theorem nonadmin_commands_rejected (chat_id : Int) (text : String)
    (vpsList : List VPS) (users : UserData) (o : ExecOutcome) (okf : Nat → Bool)
    (hna : is_admin chat_id = false) :
    handle_attack chat_id text vpsList users =
        ⟨[(chat_id, adminOnlyMsg)], vpsList, users, [], []⟩ ∧
    handle_avps chat_id text vpsList users =
        ⟨[(chat_id, adminOnlyMsg)], vpsList, users, [], []⟩ ∧
    handle_upload_start chat_id vpsList users =
        ⟨[(chat_id, adminOnlyMsg)], vpsList, users, [], []⟩ ∧
    handle_ls chat_id text vpsList users o =
        ⟨[(chat_id, adminOnlyMsg)], vpsList, users, [], []⟩ ∧
    handle_delete chat_id text vpsList users o =
        ⟨[(chat_id, adminOnlyMsg)], vpsList, users, [], []⟩ ∧
    handle_terminal chat_id text vpsList users o =
        ⟨[(chat_id, adminOnlyMsg)], vpsList, users, [], []⟩ ∧
    handle_chmod chat_id text vpsList users o =
        ⟨[(chat_id, adminOnlyMsg)], vpsList, users, [], []⟩ ∧
    (handle_cvps chat_id vpsList users okf).msgs.head? = some (chat_id, checkingMsg) ∧
    checkingMsg ≠ adminOnlyMsg ∧
    (handle_cvps chat_id vpsList users okf).calls =
      vpsList.map (fun v => RemoteCall.probe v.ip) := by
  refine ⟨?_, ?_, ?_, ?_, ?_, ?_, ?_, rfl, by decide, rfl⟩ <;>
    simp [handle_attack, handle_avps, handle_upload_start, handle_ls,
      handle_delete, handle_terminal, handle_chmod, hna]

/-- Witness for the non-admin rejection at chat id 0, which is not in the
admin list. -/
theorem nonadmin_commands_rejected_witness :
    is_admin 0 = false ∧
    (handle_attack 0 "/attack 1.1.1.1 80" [testVps] [] =
        ⟨[(0, adminOnlyMsg)], [testVps], [], [], []⟩ ∧
     handle_avps 0 "/attack 1.1.1.1 80" [testVps] [] =
        ⟨[(0, adminOnlyMsg)], [testVps], [], [], []⟩ ∧
     handle_upload_start 0 [testVps] [] =
        ⟨[(0, adminOnlyMsg)], [testVps], [], [], []⟩ ∧
     handle_ls 0 "/attack 1.1.1.1 80" [testVps] [] (ExecOutcome.exc "e") =
        ⟨[(0, adminOnlyMsg)], [testVps], [], [], []⟩ ∧
     handle_delete 0 "/attack 1.1.1.1 80" [testVps] [] (ExecOutcome.exc "e") =
        ⟨[(0, adminOnlyMsg)], [testVps], [], [], []⟩ ∧
     handle_terminal 0 "/attack 1.1.1.1 80" [testVps] [] (ExecOutcome.exc "e") =
        ⟨[(0, adminOnlyMsg)], [testVps], [], [], []⟩ ∧
     handle_chmod 0 "/attack 1.1.1.1 80" [testVps] [] (ExecOutcome.exc "e") =
        ⟨[(0, adminOnlyMsg)], [testVps], [], [], []⟩ ∧
     (handle_cvps 0 [testVps] [] (fun _ => true)).msgs.head? = some (0, checkingMsg) ∧
     checkingMsg ≠ adminOnlyMsg ∧
     (handle_cvps 0 [testVps] [] (fun _ => true)).calls =
       [testVps].map (fun v => RemoteCall.probe v.ip)) :=
  ⟨by decide,
   nonadmin_commands_rejected 0 "/attack 1.1.1.1 80" [testVps] []
     (ExecOutcome.exc "e") (fun _ => true) (by decide)⟩

end Tum
